import Mathlib

/-!
Verification of the dapptoon tray/server core (Go, `main` package) against
its natural-language specification.  The Go source is shallowly embedded:
pure computations become Lean functions, the effectful handlers become
functions producing explicit effect lists, and process-level behaviour
(exit codes, logging) is tracked in explicit result structures.
-/

namespace Dapptoon

/-! ## Static content server (`startServer`) -/

/-- An HTTP response: numeric status plus body bytes. -/
structure HTTPResponse where
  status : Nat
  body : List Nat
  deriving DecidableEq, Repr

/-- Association-list lookup of a request path in the static content source
(the read-only mapping from URL path to byte content that the embedded
`dist` tree provides). -/
def findContent : List (String × List Nat) → String → Option (List Nat)
  | [], _ => none
  | (q, b) :: rest, p => if q = p then some b else findContent rest p

/-- Modelled from the spec: the not-found response produced by the file
server for a path absent from the content source.  The status is 404; the
body is left empty in the model since the spec fixes only the status class.
The actual serving code (`http.FileServer`) lives in the Go standard
library, not in this repository. -/
def notFoundResponse : HTTPResponse := ⟨404, []⟩

/-- Modelled from the spec: a GET request is resolved against the static
content source; a present path is answered with the stored bytes verbatim
(status 200) and an absent path with the not-found response.  No fallback
index document exists.  (`http.FileServer` is standard-library code, absent
from this repository; the spec describes it as serving the source
verbatim.) -/
def serveGET (src : List (String × List Nat)) (p : String) : HTTPResponse :=
  match findContent src p with
  | some b => ⟨200, b⟩
  | none => notFoundResponse

/-! ## Network locator (`getLANIP`) -/

/-- One address as returned by `net.InterfaceAddrs`: a loopback flag and,
when the address is IPv4, its four octets (`IP.To4` result).  The Go code
also type-asserts each address to `*net.IPNet`; `net.InterfaceAddrs`
returns only such values, so that assertion is modelled as always
succeeding. -/
structure IfaceAddr where
  isLoopback : Bool
  v4 : Option (Nat × Nat × Nat × Nat)
  deriving DecidableEq, Repr

/-- Dotted-quad rendering of the four IPv4 octets (`ip4.String()`). -/
def ip4String : Nat × Nat × Nat × Nat → String
  | (a, b, c, d) =>
    toString a ++ "." ++ toString b ++ "." ++ toString c ++ "." ++ toString d

/-- The scan loop of `getLANIP`: skip loopback addresses and addresses
without an IPv4 form; return the dotted-quad rendering of the first
non-loopback IPv4 address, or the empty string when none exists. -/
def scanAddrs : List IfaceAddr → String
  | [] => ""
  | a :: rest =>
    if !a.isLoopback then
      match a.v4 with
      | some ip => ip4String ip
      | none => scanAddrs rest
    else scanAddrs rest

/-- `getLANIP`: when `net.InterfaceAddrs` itself errors (`none` input),
return the empty string; otherwise scan the returned address list. -/
def getLANIP : Option (List IfaceAddr) → String
  | none => ""
  | some addrs => scanAddrs addrs

/-- An address qualifies when it is non-loopback and has an IPv4 form. -/
def qualifies (a : IfaceAddr) : Bool := !a.isLoopback && a.v4.isSome

/-- `fmt.Sprintf "http://%s:%d"` as used by `main` to build the LAN URL. -/
def renderURL (host : String) (port : Nat) : String :=
  "http://" ++ host ++ ":" ++ toString port

/-! ## Tray controller (`onReady` select loop) and platform bridge -/

/-- The four menu actions bound to the four tray menu entries. -/
inductive MenuAction where
  | openApp
  | copyURL
  | showQR
  | quit
  deriving DecidableEq, Repr

/-- The clipboard commands the `CopyURL` handler builds, one per platform
branch: on Windows `cmd /c echo <text>| clip` (the echoed text is the URL),
on macOS `pbcopy` with the URL on standard input, otherwise `xclip
-selection clipboard` with the URL on standard input. -/
inductive ClipboardCmd where
  | winEchoClip (text : String)
  | pbcopy (stdin : String)
  | xclip (stdin : String)
  deriving DecidableEq, Repr

/-- Observable side effects of the menu-action handlers: a fire-and-forget
external process start (`exec.Command(...).Start()`), a clipboard command
run to completion, a QR image file write, and the `systray.Quit` call. -/
inductive Effect where
  | execStart (cmd : String) (args : List String)
  | clipboard (c : ClipboardCmd)
  | qrWriteFile (file : String) (content : String)
  | systrayQuit
  deriving DecidableEq, Repr

/-- `openBrowser`: platform switch on `runtime.GOOS` launching the
OS-registered opener as a fire-and-forget process; on an unrecognized
platform no command is run at all. -/
def openBrowser (goos url : String) : List Effect :=
  if goos = "linux" then [.execStart "xdg-open" [url]]
  else if goos = "windows" then
    [.execStart "rundll32" ["url.dll,FileProtocolHandler", url]]
  else if goos = "darwin" then [.execStart "open" [url]]
  else []

/-- The clipboard command chosen by the `CopyURL` handler for the given
`runtime.GOOS` value; in every branch the text carried is the LAN URL. -/
def clipboardCmdFor (goos s : String) : ClipboardCmd :=
  if goos = "windows" then .winEchoClip s
  else if goos = "darwin" then .pbcopy s
  else .xclip s

/-- Modelled from the spec: what each external clipboard utility (`clip`,
`pbcopy`, `xclip` — external OS programs, absent from this repository)
places on the clipboard, namely the text handed to it. -/
def deliveredClipboardText : ClipboardCmd → String
  | .winEchoClip t => t
  | .pbcopy s => s
  | .xclip s => s

/-- Effects of handling one menu action, reading the process-wide LAN URL.
`OpenApp` opens the fixed local URL, `CopyURL` runs the platform clipboard
command with the LAN URL, `ShowQR` writes `lan_qr.png` encoding the LAN URL
and opens it, `Quit` calls `systray.Quit`. -/
def handleAction (goos lanURL : String) : MenuAction → List Effect
  | .openApp => openBrowser goos "http://localhost:8000"
  | .copyURL => [.clipboard (clipboardCmdFor goos lanURL)]
  | .showQR => .qrWriteFile "lan_qr.png" lanURL :: openBrowser goos "lan_qr.png"
  | .quit => [.systrayQuit]

/-- Effects of the dispatch loop over a delivered action sequence: actions
are handled one at a time in order; handling `Quit` returns from the loop,
so nothing after it is processed. -/
def dispatchEffects (goos lanURL : String) : List MenuAction → List Effect
  | [] => []
  | a :: rest =>
    handleAction goos lanURL a ++
      (if a = .quit then [] else dispatchEffects goos lanURL rest)

/-- Begin/end events of individual handler invocations, used to state that
handling is strictly serialized. -/
inductive TraceEv where
  | enter (a : MenuAction)
  | leave (a : MenuAction)
  deriving DecidableEq, Repr

/-- Invocation trace of the dispatch loop: each delivered action is handled
to completion (enter, then leave) before the next is dequeued; `Quit` ends
the loop. -/
def dispatchTrace : List MenuAction → List TraceEv
  | [] => []
  | a :: rest =>
    .enter a :: .leave a ::
      (if a = .quit then [] else dispatchTrace rest)

/-- The actions whose handlers were actually invoked, read off the trace. -/
def handledActions (tr : List TraceEv) : List MenuAction :=
  tr.filterMap fun e =>
    match e with
    | .enter a => some a
    | .leave _ => none

/-- Serialization predicate on a trace: every handler invocation runs to
completion before the next begins (the trace is a sequence of matched
enter/leave pairs with nothing interleaved). -/
def serializedTrace : List TraceEv → Bool
  | [] => true
  | .enter a :: .leave b :: rest => a = b && serializedTrace rest
  | _ => false

/-- `Quit` occurs at most as the final element of the action sequence. -/
def quitOnlyLast : List MenuAction → Bool
  | [] => true
  | a :: rest => (a ≠ MenuAction.quit || rest.isEmpty) && quitOnlyLast rest

/-! ## Failure handling of the platform bridge -/

/-- Result of running one handler with injected external-process outcomes:
the external invocations attempted, the log lines produced, and whether the
failure propagated out of the handler (it never does in the code). -/
structure HandlerRun where
  attempts : List Effect
  logs : List String
  propagated : Bool
  deriving DecidableEq, Repr

/-- `openBrowser` with an injected outcome for the `Start()` call (`some e`
means it failed with message `e`): when a command was attempted and failed,
the failure is logged with the fixed message; on an unrecognized platform
no command is attempted, so `err` stays nil and nothing is logged.  The
error is never returned to the caller. -/
def openBrowserRun (goos url : String) (res : Option String) : HandlerRun :=
  { attempts := openBrowser goos url
    logs :=
      match openBrowser goos url, res with
      | [], _ => []
      | _, some e => ["Failed to open browser: " ++ e]
      | _, none => []
    propagated := false }

/-- The `CopyURL` handler with an injected outcome for the clipboard
command `Run()` call: the return value of `Run()` is discarded in the code,
so nothing is logged regardless of the outcome and nothing propagates. -/
def copyURLRun (goos lanURL : String) (_res : Option String) : HandlerRun :=
  { attempts := [.clipboard (clipboardCmdFor goos lanURL)]
    logs := []
    propagated := false }

/-- The `ShowQR` handler with injected outcomes for `qrcode.WriteFile`
(explicitly discarded with a blank assignment in the code) and for the
subsequent `openBrowser` on the image file. -/
def showQRRun (goos lanURL : String) (_wres bres : Option String) :
    HandlerRun :=
  { attempts :=
      .qrWriteFile "lan_qr.png" lanURL ::
        (openBrowserRun goos "lan_qr.png" bres).attempts
    logs := (openBrowserRun goos "lan_qr.png" bres).logs
    propagated := false }

/-! ## Server task and process lifecycle -/

/-- Result of the background server goroutine: how many bind attempts were
made, the log lines, and the exit status when the process was terminated
(`log.Fatal`). -/
structure ServerRun where
  bindAttempts : Nat
  logs : List String
  exitStatus : Option Nat
  deriving DecidableEq, Repr

/-- The goroutine launched by `startServer`: a single
`log.Fatal(http.ListenAndServe(":8000", nil))` call.  The input is the
bind outcome (`some e` = bind failed with message `e`).  Modelled from the
spec for the standard-library part: `log.Fatal` logs its argument and
terminates the process with a non-zero (status 1) exit; on success the
serve loop runs for the process lifetime. -/
def startServerTask : Option String → ServerRun
  | some e => { bindAttempts := 1, logs := [e], exitStatus := some 1 }
  | none => { bindAttempts := 1, logs := [], exitStatus := none }

/-- Modelled from the spec: after `Quit` is handled the dispatch loop
returns, `systray.Run` returns, `main` returns and the process exits with
status 0 (`systray` is an external library, absent from this repository). -/
def exitStatusOnQuit : Nat := 0

/-! ## `main` -/

/-- The observable startup events of `main`, in program order. -/
inductive MainEv where
  | assignLanURL (url : String)
  | logServing (url : String)
  | launchServer
  | runTray
  deriving DecidableEq, Repr

/-- `main`: compute the LAN IP once, assign the global `lanURL` once, print
the serving line, launch the background server, then run the tray loop.
The input is the `net.InterfaceAddrs` result feeding `getLANIP`. -/
def mainTrace (ifaces : Option (List IfaceAddr)) : List MainEv :=
  let lanIP := getLANIP ifaces
  let url := renderURL lanIP 8000
  [.assignLanURL url, .logServing url, .launchServer, .runTray]

/-- Recognizer for writes to the global `lanURL`. -/
def isAssign : MainEv → Bool
  | .assignLanURL _ => true
  | _ => false

/-! ## Observation helpers -/

/-- URLs/paths handed to the OS open-in-viewer utility, read off an effect
list (the viewer argument of `xdg-open`, `open`, or `rundll32`). -/
def viewerOpens (es : List Effect) : List String :=
  es.filterMap fun e =>
    match e with
    | .execStart "xdg-open" [u] => some u
    | .execStart "open" [u] => some u
    | .execStart "rundll32" [_, u] => some u
    | _ => none

/-- Texts placed on the clipboard by the effects of a run. -/
def clipboardTexts (es : List Effect) : List String :=
  es.filterMap fun e =>
    match e with
    | .clipboard c => some (deliveredClipboardText c)
    | _ => none

/-- Every read of the global `lanURL` value made by the handlers: the text
given to the clipboard and the content encoded into the QR file. -/
def lanURLReads (es : List Effect) : List String :=
  es.filterMap fun e =>
    match e with
    | .clipboard c => some (deliveredClipboardText c)
    | .qrWriteFile _ content => some content
    | _ => none

/-! ## Helper lemmas -/

/-- Dotted-quad strings are never empty. -/
theorem ip4String_ne_empty (ip : Nat × Nat × Nat × Nat) : ip4String ip ≠ "" := by
  obtain ⟨a, b, c, d⟩ := ip
  intro h
  have hlen := congrArg String.length h
  simp [ip4String, String.length_append] at hlen
  exact absurd hlen.1.2 (by decide)

/-- Correspondence of the scan loop with "first qualifying address". -/
theorem scanAddrs_spec (addrs : List IfaceAddr) :
    (∀ a ip, addrs.find? qualifies = some a → a.v4 = some ip →
      scanAddrs addrs = ip4String ip) ∧
    (addrs.find? qualifies = none → scanAddrs addrs = "") := by
  induction addrs with
  | nil => simp [scanAddrs]
  | cons a rest ih =>
    cases hl : a.isLoopback with
    | true =>
      have hq : qualifies a = false := by simp [qualifies, hl]
      constructor
      · intro x ip hf hv
        rw [List.find?_cons_of_neg _ (by simp [hq])] at hf
        simpa [scanAddrs, hl] using ih.1 x ip hf hv
      · intro hf
        rw [List.find?_cons_of_neg _ (by simp [hq])] at hf
        simpa [scanAddrs, hl] using ih.2 hf
    | false =>
      cases hv : a.v4 with
      | none =>
        have hq : qualifies a = false := by simp [qualifies, hl, hv]
        constructor
        · intro x ip hf hvx
          rw [List.find?_cons_of_neg _ (by simp [hq])] at hf
          simpa [scanAddrs, hl, hv] using ih.1 x ip hf hvx
        · intro hf
          rw [List.find?_cons_of_neg _ (by simp [hq])] at hf
          simpa [scanAddrs, hl, hv] using ih.2 hf
      | some ip0 =>
        have hq : qualifies a = true := by simp [qualifies, hl, hv]
        constructor
        · intro x ip hf hvx
          rw [List.find?_cons_of_pos _ (by simp [hq])] at hf
          cases hf
          rw [hv] at hvx
          cases hvx
          simp [scanAddrs, hl, hv]
        · intro hf
          rw [List.find?_cons_of_pos _ (by simp [hq])] at hf
          cases hf

/-- Opening the browser never reads the global LAN URL. -/
theorem lanURLReads_openBrowser (goos v : String) :
    lanURLReads (openBrowser goos v) = [] := by
  unfold openBrowser
  split_ifs <;> rfl

/-- The clipboard command always carries exactly the text it was given. -/
theorem deliveredClipboardText_cmdFor (goos s : String) :
    deliveredClipboardText (clipboardCmdFor goos s) = s := by
  unfold clipboardCmdFor
  split_ifs <;> rfl

/-- Every global-URL read made while handling any action sequence yields
the one value the handlers were given. -/
theorem lanURLReads_dispatch_all (goos u : String) (acts : List MenuAction) :
    (lanURLReads (dispatchEffects goos u acts)).all (fun t => t == u) = true := by
  induction acts with
  | nil => rfl
  | cons a rest ih =>
    have hhandle :
        (lanURLReads (handleAction goos u a)).all (fun t => t == u) = true := by
      cases a with
      | openApp => simp [handleAction, lanURLReads_openBrowser]
      | copyURL =>
        simp [handleAction, lanURLReads, deliveredClipboardText_cmdFor]
      | showQR =>
        have hrw : lanURLReads (handleAction goos u MenuAction.showQR)
            = u :: lanURLReads (openBrowser goos "lan_qr.png") := rfl
        rw [hrw, lanURLReads_openBrowser]
        simp
      | quit => rfl
    by_cases hq : a = MenuAction.quit
    · simp [dispatchEffects, hq, lanURLReads, List.filterMap_append,
        List.all_append] at hhandle ⊢
      simpa [hq] using hhandle
    · simp [dispatchEffects, hq, lanURLReads, List.filterMap_append,
        List.all_append] at hhandle ih ⊢
      exact ⟨hhandle, ih⟩

/-! ## Demo inputs used by the witnesses -/

/-- The content source of the spec scenario: one page at `/index.html`. -/
def demoContent : List (String × List Nat) := [("/index.html", [60, 104, 105, 62])]

/-- Interface list of the spec scenario: loopback first, then a
non-loopback IPv4 address `192.168.1.5`. -/
def demoAddrs : List IfaceAddr :=
  [⟨true, some (127, 0, 0, 1)⟩, ⟨false, some (192, 168, 1, 5)⟩]

/-- An interface list with no qualifying address: a loopback IPv4 address
and a non-loopback address with no IPv4 form. -/
def demoAddrsNone : List IfaceAddr := [⟨true, some (127, 0, 0, 1)⟩, ⟨false, none⟩]

/-! ## Claims -/

/-- C1: for any static content source and any path present in it, a GET
request for that path returns a response whose body is byte-identical to
the content stored at that path in the source. -/
theorem get_present_byte_identical (src : List (String × List Nat))
    (p : String) (b : List Nat) (h : findContent src p = some b) :
    (serveGET src p).body = b ∧ (serveGET src p).status = 200 := by
  simp [serveGET, h]

/-- C1 witness: the spec scenario content source, at path `/index.html`. -/
theorem get_present_byte_identical_witness :
    findContent demoContent "/index.html" = some [60, 104, 105, 62] ∧
    ((serveGET demoContent "/index.html").body = [60, 104, 105, 62] ∧
      (serveGET demoContent "/index.html").status = 200) :=
  ⟨rfl, get_present_byte_identical demoContent "/index.html" _ rfl⟩

/-- C2: for any path absent from the static content source, a GET request
returns the not-found response (status 404); the response does not depend
on the content source at all, so no fallback index document is served. -/
theorem get_absent_not_found (src : List (String × List Nat)) (p : String)
    (h : findContent src p = none) :
    serveGET src p = notFoundResponse ∧ (serveGET src p).status = 404 ∧
    serveGET src p = serveGET [] p := by
  simp [serveGET, h, findContent, notFoundResponse]

/-- C2 witness: the spec scenario content source, at the missing path. -/
theorem get_absent_not_found_witness :
    findContent demoContent "/missing" = none ∧
    (serveGET demoContent "/missing" = notFoundResponse ∧
      (serveGET demoContent "/missing").status = 404 ∧
      serveGET demoContent "/missing" = serveGET [] "/missing") :=
  ⟨rfl, get_absent_not_found demoContent "/missing" rfl⟩

/-- C3: over a successfully enumerated interface address list, `getLANIP`
returns the dotted-quad form of the first non-loopback IPv4 address when
one exists — a non-empty host — and the empty string, without error, when
none exists. -/
theorem getLANIP_first_qualifying (addrs : List IfaceAddr) :
    (∀ a ip, addrs.find? qualifies = some a → a.v4 = some ip →
      getLANIP (some addrs) = ip4String ip ∧ getLANIP (some addrs) ≠ "") ∧
    (addrs.find? qualifies = none → getLANIP (some addrs) = "") := by
  refine ⟨fun a ip hf hv => ⟨?_, ?_⟩, fun hf => (scanAddrs_spec addrs).2 hf⟩
  · exact (scanAddrs_spec addrs).1 a ip hf hv
  · rw [show getLANIP (some addrs) = scanAddrs addrs from rfl,
      (scanAddrs_spec addrs).1 a ip hf hv]
    exact ip4String_ne_empty ip

/-- C3 witness: the spec scenario interface list yields `192.168.1.5`, and
a list with no qualifying interface yields the empty host. -/
theorem getLANIP_first_qualifying_witness :
    (getLANIP (some demoAddrs) = ip4String (192, 168, 1, 5) ∧
      getLANIP (some demoAddrs) ≠ "") ∧
    getLANIP (some demoAddrsNone) = "" :=
  ⟨(getLANIP_first_qualifying demoAddrs).1 ⟨false, some (192, 168, 1, 5)⟩
      (192, 168, 1, 5) (by decide) rfl,
    (getLANIP_first_qualifying demoAddrsNone).2 (by decide)⟩

/-- C4: a bind failure of the HTTP listener is fatal — the cause is logged
and the process terminates with a non-zero exit status — and the bind is
attempted exactly once, never retried. -/
theorem bind_failure_fatal (e : String) :
    (startServerTask (some e)).logs = [e] ∧
    (∃ c, (startServerTask (some e)).exitStatus = some c ∧ c ≠ 0) ∧
    (startServerTask (some e)).bindAttempts = 1 :=
  ⟨rfl, ⟨1, rfl, one_ne_zero⟩, rfl⟩

/-- C5 counterexample: the claim quantifies over every dispatched action
sequence, but handling `Quit` returns from the loop, so for the sequence
`[Quit, OpenApp]` only one handler is invoked, not two — the claim as
stated is false. -/
theorem dispatch_after_quit_dropped :
    ¬ handledActions (dispatchTrace [MenuAction.quit, MenuAction.openApp]) =
      [MenuAction.quit, MenuAction.openApp] := by decide

/-- C5 (amended): for every sequence of N menu actions in which `Quit`
occurs at most as the final action, the dispatch loop invokes exactly N
handlers, each the one bound to its action, in the same order as the
sequence, and no two handler invocations overlap (each runs to completion
before the next begins). -/
theorem dispatch_in_order_serialized (acts : List MenuAction)
    (h : quitOnlyLast acts = true) :
    handledActions (dispatchTrace acts) = acts ∧
    serializedTrace (dispatchTrace acts) = true := by
  induction acts with
  | nil => exact ⟨rfl, rfl⟩
  | cons a rest ih =>
    rw [quitOnlyLast, Bool.and_eq_true] at h
    by_cases hq : a = MenuAction.quit
    · have hrest : rest = [] := by
        rcases Bool.or_eq_true_iff.mp h.1 with h1 | h1
        · exact absurd hq (by simpa using h1)
        · exact List.isEmpty_iff.mp h1
      subst hq
      subst hrest
      exact ⟨rfl, by decide⟩
    · have := ih h.2
      refine ⟨?_, ?_⟩
      · show handledActions
          (.enter a :: .leave a ::
            (if a = MenuAction.quit then [] else dispatchTrace rest)) = a :: rest
        rw [if_neg hq]
        show a :: handledActions (dispatchTrace rest) = a :: rest
        rw [this.1]
      · show serializedTrace
          (.enter a :: .leave a ::
            (if a = MenuAction.quit then [] else dispatchTrace rest)) = true
        rw [if_neg hq]
        show (a = a && serializedTrace (dispatchTrace rest)) = true
        simp [this.2]

/-- C5 (amended) witness: a four-action sequence ending in `Quit`. -/
theorem dispatch_in_order_serialized_witness :
    quitOnlyLast
        [MenuAction.openApp, MenuAction.copyURL, MenuAction.showQR,
          MenuAction.quit] = true ∧
    (handledActions
        (dispatchTrace
          [MenuAction.openApp, MenuAction.copyURL, MenuAction.showQR,
            MenuAction.quit]) =
      [MenuAction.openApp, MenuAction.copyURL, MenuAction.showQR,
        MenuAction.quit] ∧
    serializedTrace
        (dispatchTrace
          [MenuAction.openApp, MenuAction.copyURL, MenuAction.showQR,
            MenuAction.quit]) = true) :=
  ⟨by decide, dispatch_in_order_serialized _ (by decide)⟩

/-- C6: dispatching `[OpenApp, Quit]` invokes the open-in-viewer capability
exactly once, with `http://localhost:8000`; the loop terminates on `Quit`
so any later actions change neither the effects nor the invocation trace;
and the process exits with status 0. -/
theorem open_then_quit_scenario (goos : String)
    (h : goos = "linux" ∨ goos = "darwin" ∨ goos = "windows")
    (url : String) (extra : List MenuAction) :
    viewerOpens (dispatchEffects goos url
        ([MenuAction.openApp, MenuAction.quit] ++ extra)) =
      ["http://localhost:8000"] ∧
    dispatchEffects goos url ([MenuAction.openApp, MenuAction.quit] ++ extra) =
      dispatchEffects goos url [MenuAction.openApp, MenuAction.quit] ∧
    dispatchTrace ([MenuAction.openApp, MenuAction.quit] ++ extra) =
      dispatchTrace [MenuAction.openApp, MenuAction.quit] ∧
    exitStatusOnQuit = 0 := by
  rcases h with h | h | h <;> subst h <;> exact ⟨rfl, rfl, rfl, rfl⟩

/-- C6 witness: on Linux, with the LAN URL of the spec scenario and one
extra action queued after `Quit`. -/
theorem open_then_quit_scenario_witness :
    ("linux" = "linux" ∨ "linux" = "darwin" ∨ "linux" = "windows") ∧
    (viewerOpens (dispatchEffects "linux" "http://192.168.1.5:8000"
        ([MenuAction.openApp, MenuAction.quit] ++ [MenuAction.copyURL])) =
      ["http://localhost:8000"] ∧
    dispatchEffects "linux" "http://192.168.1.5:8000"
        ([MenuAction.openApp, MenuAction.quit] ++ [MenuAction.copyURL]) =
      dispatchEffects "linux" "http://192.168.1.5:8000"
        [MenuAction.openApp, MenuAction.quit] ∧
    dispatchTrace ([MenuAction.openApp, MenuAction.quit] ++ [MenuAction.copyURL]) =
      dispatchTrace [MenuAction.openApp, MenuAction.quit] ∧
    exitStatusOnQuit = 0) :=
  ⟨Or.inl rfl,
    open_then_quit_scenario "linux" (Or.inl rfl) "http://192.168.1.5:8000"
      [MenuAction.copyURL]⟩

/-- C7 counterexample: the claim says every external-process failure is
logged, but the `CopyURL` handler discards the result of the clipboard
command (`Run()` return value unused): when the clipboard command fails
with `exit status 1` on Linux, the log stays empty. -/
theorem clipboard_failure_unlogged :
    ¬ (copyURLRun "linux" "http://192.168.1.5:8000" (some "exit status 1")).logs
        ≠ [] :=
  fun hne => hne rfl

/-- C7 (amended): no failure of a PlatformBridge capability or external
process invocation is retried (the attempted invocations are the same
whether the call fails or succeeds) or propagated to terminate the service;
a failed browser open is logged with the fixed message, while clipboard and
QR-write failures are silently discarded, producing no log line. -/
theorem bridge_failures_nonfatal (goos url lanURL e : String)
    (wres bres : Option String)
    (hattempt : openBrowser goos url ≠ []) :
    (openBrowserRun goos url (some e)).propagated = false ∧
    (copyURLRun goos lanURL (some e)).propagated = false ∧
    (showQRRun goos lanURL wres bres).propagated = false ∧
    (openBrowserRun goos url (some e)).attempts =
      (openBrowserRun goos url none).attempts ∧
    (copyURLRun goos lanURL (some e)).attempts =
      (copyURLRun goos lanURL none).attempts ∧
    (showQRRun goos lanURL wres bres).attempts =
      (showQRRun goos lanURL none none).attempts ∧
    (copyURLRun goos lanURL (some e)).logs = [] ∧
    (showQRRun goos lanURL (some e) none).logs =
      (showQRRun goos lanURL none none).logs ∧
    (openBrowserRun goos url (some e)).logs =
      ["Failed to open browser: " ++ e] := by
  refine ⟨rfl, rfl, rfl, rfl, rfl, rfl, rfl, rfl, ?_⟩
  unfold openBrowserRun
  rcases hm : openBrowser goos url with _ | ⟨x, xs⟩
  · exact absurd hm hattempt
  · simp [hm]

/-- C7 (amended) witness: on Linux, with a concrete failure message. -/
theorem bridge_failures_nonfatal_witness :
    openBrowser "linux" "http://localhost:8000" ≠ [] ∧
    ((openBrowserRun "linux" "http://localhost:8000" (some "no handler")).propagated
        = false ∧
    (copyURLRun "linux" "http://192.168.1.5:8000" (some "no handler")).propagated
        = false ∧
    (showQRRun "linux" "http://192.168.1.5:8000" (some "disk full")
        (some "no viewer")).propagated = false ∧
    (openBrowserRun "linux" "http://localhost:8000" (some "no handler")).attempts =
      (openBrowserRun "linux" "http://localhost:8000" none).attempts ∧
    (copyURLRun "linux" "http://192.168.1.5:8000" (some "no handler")).attempts =
      (copyURLRun "linux" "http://192.168.1.5:8000" none).attempts ∧
    (showQRRun "linux" "http://192.168.1.5:8000" (some "disk full")
        (some "no viewer")).attempts =
      (showQRRun "linux" "http://192.168.1.5:8000" none none).attempts ∧
    (copyURLRun "linux" "http://192.168.1.5:8000" (some "no handler")).logs = [] ∧
    (showQRRun "linux" "http://192.168.1.5:8000" (some "no handler") none).logs =
      (showQRRun "linux" "http://192.168.1.5:8000" none none).logs ∧
    (openBrowserRun "linux" "http://localhost:8000" (some "no handler")).logs =
      ["Failed to open browser: " ++ "no handler"]) :=
  ⟨by decide,
    bridge_failures_nonfatal "linux" "http://localhost:8000"
      "http://192.168.1.5:8000" "no handler" (some "disk full")
      (some "no viewer") (by decide)⟩

/-- C8: dispatching `CopyURL` invokes the clipboard capability and the text
placed on the clipboard is exactly the computed LAN address rendered as a
URL string, on each supported platform. -/
theorem copyURL_copies_lanURL (goos host : String) (port : Nat)
    (h : goos = "windows" ∨ goos = "darwin" ∨ goos = "linux") :
    clipboardTexts (dispatchEffects goos (renderURL host port)
        [MenuAction.copyURL]) = [renderURL host port] := by
  rcases h with h | h | h <;> subst h <;>
    simp [dispatchEffects, handleAction, clipboardTexts,
      deliveredClipboardText_cmdFor]

/-- C8 witness: on macOS, with the spec scenario host and port 8000. -/
theorem copyURL_copies_lanURL_witness :
    ("darwin" = "windows" ∨ "darwin" = "darwin" ∨ "darwin" = "linux") ∧
    clipboardTexts (dispatchEffects "darwin" (renderURL "192.168.1.5" 8000)
        [MenuAction.copyURL]) = [renderURL "192.168.1.5" 8000] :=
  ⟨Or.inr (Or.inl rfl),
    copyURL_copies_lanURL "darwin" "192.168.1.5" 8000 (Or.inr (Or.inl rfl))⟩

/-- C9 counterexample: with an empty host the claim says clicking Copy LAN
URL silently does nothing and no content is produced as the copied value;
in fact the handler still invokes the clipboard and places the non-empty
malformed string `http://:8000` on it. -/
theorem copy_empty_host_still_copies :
    clipboardTexts (dispatchEffects "linux" (renderURL "" 8000)
        [MenuAction.copyURL]) = ["http://:8000"] ∧
    ("http://:8000" : String) ≠ "" := by
  constructor
  · simp [dispatchEffects, handleAction, clipboardTexts,
      deliveredClipboardText_cmdFor]
    rfl
  · decide

/-- C9 (amended): when the computed LAN address has an empty host, clicking
Copy LAN URL raises no error and logs nothing, but it does invoke the
clipboard: the copied value is the malformed empty-host URL
`http://` + `:` + port — unusable, so the only user-visible failure signal
is the absence of a usable effect. -/
theorem copy_empty_host_behavior (goos : String) (res : Option String)
    (h : goos = "windows" ∨ goos = "darwin" ∨ goos = "linux") :
    clipboardTexts (dispatchEffects goos (renderURL "" 8000)
        [MenuAction.copyURL]) = ["http://" ++ ":" ++ toString 8000] ∧
    (copyURLRun goos (renderURL "" 8000) res).logs = [] ∧
    (copyURLRun goos (renderURL "" 8000) res).propagated = false := by
  rcases h with h | h | h <;> subst h <;>
    exact ⟨by simp [dispatchEffects, handleAction, clipboardTexts,
        deliveredClipboardText_cmdFor, renderURL], rfl, rfl⟩

/-- C9 (amended) witness: on Linux, with a concrete clipboard failure. -/
theorem copy_empty_host_behavior_witness :
    ("linux" = "windows" ∨ "linux" = "darwin" ∨ "linux" = "linux") ∧
    (clipboardTexts (dispatchEffects "linux" (renderURL "" 8000)
        [MenuAction.copyURL]) = ["http://" ++ ":" ++ toString 8000] ∧
    (copyURLRun "linux" (renderURL "" 8000) (some "exit status 1")).logs = [] ∧
    (copyURLRun "linux" (renderURL "" 8000)
        (some "exit status 1")).propagated = false) :=
  ⟨Or.inr (Or.inr rfl),
    copy_empty_host_behavior "linux" (some "exit status 1")
      (Or.inr (Or.inr rfl))⟩

/-- C10: `main` assigns the global LAN URL exactly once, before the server
task is launched and before the tray loop runs, and every read of that
value made by any menu-action handler over any action sequence yields that
same value. -/
theorem lanURL_assigned_once (ifaces : Option (List IfaceAddr))
    (goos : String) (acts : List MenuAction) :
    mainTrace ifaces =
      [MainEv.assignLanURL (renderURL (getLANIP ifaces) 8000),
        MainEv.logServing (renderURL (getLANIP ifaces) 8000),
        MainEv.launchServer, MainEv.runTray] ∧
    ((mainTrace ifaces).filter isAssign).length = 1 ∧
    (lanURLReads (dispatchEffects goos (renderURL (getLANIP ifaces) 8000)
        acts)).all (fun t => t == renderURL (getLANIP ifaces) 8000) = true :=
  ⟨rfl, rfl, lanURLReads_dispatch_all goos _ acts⟩

end Dapptoon
